import Mathlib

/-!
Shallow embedding of `backend/integrations/hubspot.py`: a HubSpot OAuth2
integration (authorization initiation, callback handling, token refresh,
credential management, contact fetching) together with theorems checking the
natural-language specification against this code.

Modelling conventions:
* Python JSON values are the inductive `JValue`; serialized JSON strings on
  the wire are `Wire`: either the serialization of a `JValue` (`Wire.json v`,
  the image of `json.dumps`) or a string that is not valid JSON
  (`Wire.garbage s`), on which `json.loads` raises.
* The Redis store is an association list of key, value and the TTL passed to
  the write; `add_key_value_redis` / `get_value_redis` / `delete_key_redis`
  mirror `redis_client`.
* Python exceptions are the `PyErr` type; `HTTPException(status, detail)` is
  `PyErr.httpException`, and unhandled `json.JSONDecodeError`, `KeyError`,
  `AttributeError`, `TypeError` have their own constructors.
* Outbound HTTP (token endpoint, contacts endpoint) is an oracle function
  passed as a parameter, returning a status code, a parsed JSON body and a
  raw text body; `int(time.time())` is a `now : Int` parameter.
* Async functions have no internal concurrency observable at this level: the
  `asyncio.gather` in the callback runs the token POST and the Redis delete
  independently, which the embedding renders by performing both
  unconditionally before inspecting either outcome.
-/

namespace HubspotOAuth

/-- A Python JSON value (the result of `json.loads` / argument of `json.dumps`). -/
inductive JValue where
  | null : JValue
  | str (s : String) : JValue
  | int (n : Int) : JValue
  | arr (xs : List JValue) : JValue
  | obj (fields : List (String × JValue)) : JValue

mutual

/-- Structural equality of JSON values (Python `==` restricted to the JSON
fragment used by this code). -/
def JValue.beq : JValue → JValue → Bool
  | .null, .null => true
  | .str a, .str b => a == b
  | .int a, .int b => a == b
  | .arr xs, .arr ys => JValue.beqList xs ys
  | .obj fs, .obj gs => JValue.beqFields fs gs
  | _, _ => false

/-- Elementwise equality of JSON arrays. -/
def JValue.beqList : List JValue → List JValue → Bool
  | [], [] => true
  | x :: xs, y :: ys => JValue.beq x y && JValue.beqList xs ys
  | _, _ => false

/-- Elementwise equality of JSON object binding lists. -/
def JValue.beqFields : List (String × JValue) → List (String × JValue) → Bool
  | [], [] => true
  | (k, v) :: fs, (l, w) :: gs => k == l && JValue.beq v w && JValue.beqFields fs gs
  | _, _ => false

end

instance : BEq JValue := ⟨JValue.beq⟩

/-- A string on the wire, identified by its JSON parse result: either the
serialization of a JSON value or text that fails to parse. -/
inductive Wire where
  | json (v : JValue) : Wire
  | garbage (s : String) : Wire

/-- Python exceptions that the code under study can raise. -/
inductive PyErr where
  | httpException (status : Nat) (detail : String) : PyErr
  | jsonDecodeError : PyErr
  | keyError (key : String) : PyErr
  | attributeError : PyErr
  | typeError : PyErr
deriving DecidableEq

/-- `json.loads` on a wire string. -/
def jsonLoads : Wire → Except PyErr JValue
  | .json v => .ok v
  | .garbage _ => .error .jsonDecodeError

/-- Key lookup in a JSON object (first binding wins, as in a Python dict
where keys are unique). -/
def jLookup (fields : List (String × JValue)) (k : String) : Option JValue :=
  match fields.find? (fun p => p.1 == k) with
  | some p => some p.2
  | none => none

/-- Python `d.get(k)` (`None` when absent); raises `AttributeError` when the
receiver is not a dict. -/
def pyGet (v : JValue) (k : String) : Except PyErr (Option JValue) :=
  match v with
  | .obj fields => .ok (jLookup fields k)
  | _ => .error .attributeError

/-- Python `d.get(k, default)`; raises `AttributeError` when the receiver is
not a dict. -/
def pyGetD (v : JValue) (k : String) (default : JValue) : Except PyErr JValue :=
  match v with
  | .obj fields => .ok ((jLookup fields k).getD default)
  | _ => .error .attributeError

/-- Python `d[k]` subscript on a JSON value: `KeyError` when the key is
absent from a dict, `TypeError` when the receiver is not subscriptable
by a string. -/
def pyIndex (v : JValue) (k : String) : Except PyErr JValue :=
  match v with
  | .obj fields =>
    match jLookup fields k with
    | some w => .ok w
    | none => .error (.keyError k)
  | _ => .error .typeError

/-- Python `d[k] = w` on a JSON value: keeps the existing binding slot when
the key is present, appends otherwise; `TypeError` when the receiver does
not support item assignment. -/
def pySetItem (v : JValue) (k : String) (w : JValue) : Except PyErr JValue :=
  match v with
  | .obj fields =>
    if (jLookup fields k).isSome then
      .ok (.obj (fields.map (fun p => if p.1 = k then (k, w) else p)))
    else
      .ok (.obj (fields ++ [(k, w)]))
  | _ => .error .typeError

/-- Python `k in v` for a string `k`: key membership for dicts, element
membership for lists, substring test for strings, `TypeError` otherwise. -/
def pyContains (v : JValue) (k : String) : Except PyErr Bool :=
  match v with
  | .obj fields => .ok (jLookup fields k).isSome
  | .arr xs => .ok (xs.contains (.str k))
  | .str s => .ok (if k = "" then true else (s.splitOn k).length > 1)
  | _ => .error .typeError

/-- A single-quote character, used by Python `repr` of strings. -/
def squote : String := String.singleton (Char.ofNat 39)

mutual

/-- Python `repr` of a JSON value (escape sequences elided; only string
formatting of container values uses this, which the OAuth flow never
exercises on container-valued fields). -/
def pyRepr : JValue → String
  | .null => "None"
  | .str s => squote ++ s ++ squote
  | .int n => toString n
  | .arr xs => "[" ++ pyReprList xs ++ "]"
  | .obj fs => "\x7b" ++ pyReprFields fs ++ "\x7d"

/-- `repr` of the elements of a Python list, comma-separated. -/
def pyReprList : List JValue → String
  | [] => ""
  | [x] => pyRepr x
  | x :: xs => pyRepr x ++ ", " ++ pyReprList xs

/-- `repr` of the bindings of a Python dict, comma-separated. -/
def pyReprFields : List (String × JValue) → String
  | [] => ""
  | [(k, v)] => squote ++ k ++ squote ++ ": " ++ pyRepr v
  | (k, v) :: fs => squote ++ k ++ squote ++ ": " ++ pyRepr v ++ ", " ++ pyReprFields fs

end

/-- Python `str()` / f-string interpolation of a JSON value. -/
def pyFmt : JValue → String
  | .null => "None"
  | .str s => s
  | .int n => toString n
  | .arr xs => pyRepr (.arr xs)
  | .obj fs => pyRepr (.obj fs)

/-- f-string interpolation of the result of a `.get` (Python `None` prints
as `None`). -/
def pyFmtOpt : Option JValue → String
  | none => "None"
  | some v => pyFmt v

/-- JSON string escaping as in `json.dumps` (quote and backslash; control
and non-ASCII escapes elided, the flow never produces them). -/
def jsonEscape (s : String) : String :=
  s.data.foldr
    (fun c acc =>
      (if c = '"' ∨ c = '\\' then "\\" ++ String.singleton c else String.singleton c) ++ acc)
    ""

mutual

/-- `json.dumps` with default separators. -/
def jsonRender : JValue → String
  | .null => "null"
  | .str s => "\"" ++ jsonEscape s ++ "\""
  | .int n => toString n
  | .arr xs => "[" ++ jsonRenderList xs ++ "]"
  | .obj fs => "\x7b" ++ jsonRenderFields fs ++ "\x7d"

/-- `json.dumps` of array elements, comma-separated. -/
def jsonRenderList : List JValue → String
  | [] => ""
  | [x] => jsonRender x
  | x :: xs => jsonRender x ++ ", " ++ jsonRenderList xs

/-- `json.dumps` of object bindings, comma-separated. -/
def jsonRenderFields : List (String × JValue) → String
  | [] => ""
  | [(k, v)] => "\"" ++ jsonEscape k ++ "\": " ++ jsonRender v
  | (k, v) :: fs => "\"" ++ jsonEscape k ++ "\": " ++ jsonRender v ++ ", " ++ jsonRenderFields fs

end

/-- Truthiness of an optional query-parameter string (`None` and `""` are
falsy). -/
def pyTruthyStrOpt : Option String → Bool
  | none => false
  | some s => s != ""

/-- Truthiness of a wire string: `json.dumps` output is always a nonempty
string, garbage is truthy iff nonempty. -/
def wireTruthy : Wire → Bool
  | .json _ => true
  | .garbage s => s != ""

/-- Truthiness of an optional wire string. -/
def pyTruthyWireOpt : Option Wire → Bool
  | none => false
  | some w => wireTruthy w

/-- The Redis store: key, stored wire string, and the TTL passed at write
time. TTL-based eviction is external; an evicted or never-written key is
simply absent. -/
abbrev Store := List (String × Wire × Nat)

/-- `add_key_value_redis` from `redis_client`: SET with expiry, replacing
any previous value at the key. -/
def add_key_value_redis (store : Store) (key : String) (value : Wire) (expire : Nat) : Store :=
  (key, value, expire) :: store.filter (fun e => e.1 != key)

/-- `get_value_redis` from `redis_client`: GET, `None` when absent. -/
def get_value_redis (store : Store) (key : String) : Option Wire :=
  match store.find? (fun e => e.1 == key) with
  | some e => some e.2.1
  | none => none

/-- `delete_key_redis` from `redis_client`: DELETE. -/
def delete_key_redis (store : Store) (key : String) : Store :=
  store.filter (fun e => e.1 != key)

/-! Configuration constants from the top of `hubspot.py`. -/

def CLIENT_ID : String := "6c589afb-5fe9-4aee-85ae-dbba0e06f98d"

def CLIENT_SECRET : String := "c5737250-5666-45ce-a5f5-1ad0ac7fcd31"

def REDIRECT_URI : String := "http://localhost:8000/integrations/hubspot/oauth2callback"

def AUTHORIZATION_BASE_URL : String := "https://app.hubspot.com/oauth/authorize"

def TOKEN_URL : String := "https://api.hubapi.com/oauth/v1/token"

def CONTACTS_API_URL : String := "https://api.hubapi.com/crm/v3/objects/contacts"

def SCOPES : List String := ["crm.objects.contacts.read"]

def AUTHORIZATION_URL : String :=
  AUTHORIZATION_BASE_URL ++ "?client_id=" ++ CLIENT_ID
    ++ "&redirect_uri=" ++ REDIRECT_URI
    ++ "&scope=" ++ String.intercalate "%20" SCOPES

def STATE_TTL : Nat := 600

def CREDENTIAL_TTL : Nat := 600

/-- An `httpx` response as the code consumes it: status, parsed JSON body
(for `.json()`), raw text (for `.text`). -/
structure HttpResp where
  status_code : Nat
  jsonBody : JValue
  text : String

/-- The callback request's query parameters: `error`, `code`, `state`
(each possibly absent). -/
structure QueryParams where
  error : Option String
  code : Option String
  state : Option Wire

/-- Outcome of the callback handler: the Redis store after the call (Redis
mutations persist even when an exception aborts the handler) and either the
HTML response content or the exception raised. -/
structure CallbackOut where
  store : Store
  result : Except PyErr String

/-- Outcome of `get_hubspot_credentials`: the store after the call and
either the returned credentials dict or the exception raised. -/
structure CredOut where
  store : Store
  result : Except PyErr JValue

/-- The `state` payload built by `authorize_hubspot`
(`{'state': nonce, 'user_id': user_id, 'org_id': org_id}`). -/
def hubspotStatePayload (nonce user_id org_id : String) : JValue :=
  .obj [("state", .str nonce), ("user_id", .str user_id), ("org_id", .str org_id)]

/-- `authorize_hubspot(user_id, org_id)`. The nonce chosen by
`secrets.token_urlsafe(32)` is a parameter (the code draws it at random).
Returns the store after registering the pending state and the redirect
URL. -/
def authorize_hubspot (nonce : String) (user_id org_id : String) (store : Store) :
    Store × String :=
  let state_payload := hubspotStatePayload nonce user_id org_id
  let encoded_state := Wire.json state_payload
  let redis_key := "hubspot_state:" ++ org_id ++ ":" ++ user_id
  (add_key_value_redis store redis_key encoded_state STATE_TTL,
    AUTHORIZATION_URL ++ "&state=" ++ jsonRender state_payload)

/-- The HTML response returned by a successful callback. -/
def closeWindowHtml : String := "<html><script>window.close();</script></html>"

/-- `oauth2callback_hubspot` after the provider-error check: parameter
check, state decode, pending-state lookup, nonce comparison, then the
concurrent token exchange and state deletion, and the credential write. -/
def oauth2callbackChecks (now : Int) (exchange : String → HttpResp)
    (req : QueryParams) (store : Store) : CallbackOut :=
  -- `if not code or not encoded_state:`
  if !(pyTruthyStrOpt req.code) || !(pyTruthyWireOpt req.state) then
    ⟨store, .error (.httpException 400 "Missing code or state.")⟩
  else
    -- `state_data = json.loads(encoded_state)`
    match jsonLoads ((req.state).getD (.garbage "")) with
    | .error e => ⟨store, .error e⟩
    | .ok state_data =>
      match state_data with
      | .obj fs =>
        let user_id := jLookup fs "user_id"
        let org_id := jLookup fs "org_id"
        let received_state := jLookup fs "state"
        let redis_key := "hubspot_state:" ++ pyFmtOpt org_id ++ ":" ++ pyFmtOpt user_id
        -- `stored_state_raw = await get_value_redis(redis_key)`
        match get_value_redis store redis_key with
        | none => ⟨store, .error (.httpException 400 "OAuth state expired or missing.")⟩
        | some raw =>
          if !(wireTruthy raw) then
            ⟨store, .error (.httpException 400 "OAuth state expired or missing.")⟩
          else
            match jsonLoads raw with
            | .error e => ⟨store, .error e⟩
            | .ok stored_state =>
              match pyGet stored_state "state" with
              | .error e => ⟨store, .error e⟩
              | .ok stored_nonce =>
                if !(received_state == stored_nonce) then
                  ⟨store, .error (.httpException 400 "State mismatch detected.")⟩
                else
                  -- `asyncio.gather(client.post(...), delete_key_redis(redis_key))`:
                  -- both run regardless of the other's outcome.
                  let token_response := exchange ((req.code).getD "")
                  let store1 := delete_key_redis store redis_key
                  if token_response.status_code != 200 then
                    ⟨store1, .error (.httpException token_response.status_code token_response.text)⟩
                  else
                    match pySetItem token_response.jsonBody "issued_at" (.int now) with
                    | .error e => ⟨store1, .error e⟩
                    | .ok credentials =>
                      ⟨add_key_value_redis store1
                          ("hubspot_credentials:" ++ pyFmtOpt org_id ++ ":" ++ pyFmtOpt user_id)
                          (.json credentials) CREDENTIAL_TTL,
                        .ok closeWindowHtml⟩
      | _ => ⟨store, .error .attributeError⟩

/-- `oauth2callback_hubspot(request)`. `now` is `int(time.time())` at the
moment of the token exchange; `exchange` is the token endpoint keyed by the
authorization `code` POSTed to it. -/
def oauth2callback_hubspot (now : Int) (exchange : String → HttpResp)
    (req : QueryParams) (store : Store) : CallbackOut :=
  -- `if error := request.query_params.get('error'):`
  match req.error with
  | some e =>
    if e != "" then ⟨store, .error (.httpException 400 e)⟩
    else oauth2callbackChecks now exchange req store
  | none => oauth2callbackChecks now exchange req store

/-- `refresh_hubspot_token(refresh_token)`. `tokenEndpoint` is the token
endpoint keyed by the `refresh_token` form value POSTed to it. -/
def refresh_hubspot_token (now : Int) (tokenEndpoint : JValue → HttpResp)
    (refresh_token : JValue) : Except PyErr JValue :=
  let response := tokenEndpoint refresh_token
  if response.status_code != 200 then
    .error (.httpException response.status_code "Token refresh failed.")
  else
    -- `refreshed['issued_at'] = int(time.time())`
    pySetItem response.jsonBody "issued_at" (.int now)

/-- The guard `'expires_in' in credentials and 'issued_at' in credentials`
followed by `now > credentials['issued_at'] + credentials['expires_in'] - 300`.
Non-integer timestamp fields raise `TypeError` as Python addition would. -/
def credExpiryCheck (credentials : JValue) (now : Int) : Except PyErr Bool :=
  match pyContains credentials "expires_in" with
  | .error e => .error e
  | .ok false => .ok false
  | .ok true =>
    match pyContains credentials "issued_at" with
    | .error e => .error e
    | .ok false => .ok false
    | .ok true =>
      match pyIndex credentials "issued_at", pyIndex credentials "expires_in" with
      | .error e, _ => .error e
      | .ok _, .error e => .error e
      | .ok (.int i), .ok (.int e) => .ok (decide (now > i + e - 300))
      | .ok _, .ok _ => .error .typeError

/-- `get_hubspot_credentials(user_id, org_id)`. -/
def get_hubspot_credentials (now : Int) (tokenEndpoint : JValue → HttpResp)
    (user_id org_id : String) (store : Store) : CredOut :=
  let redis_key := "hubspot_credentials:" ++ org_id ++ ":" ++ user_id
  match get_value_redis store redis_key with
  | none => ⟨store, .error (.httpException 400 "No credentials found or expired.")⟩
  | some raw =>
    if !(wireTruthy raw) then
      ⟨store, .error (.httpException 400 "No credentials found or expired.")⟩
    else
      match jsonLoads raw with
      | .error e => ⟨store, .error e⟩
      | .ok credentials =>
        match credExpiryCheck credentials now with
        | .error e => ⟨store, .error e⟩
        | .ok true =>
          -- `credentials['refresh_token']` (KeyError when absent)
          match pyIndex credentials "refresh_token" with
          | .error e => ⟨store, .error e⟩
          | .ok rt =>
            match refresh_hubspot_token now tokenEndpoint rt with
            | .error e => ⟨store, .error e⟩
            | .ok refreshed =>
              ⟨add_key_value_redis store redis_key (.json refreshed) CREDENTIAL_TTL,
                .ok refreshed⟩
        | .ok false => ⟨store, .ok credentials⟩

/-- Modelled from the spec: the CanonicalItem record
(`integrations/integration_item.py` is not in the sources; the spec gives
`{id, type, name, creation_time, last_modified_time, parent_id}` and the
constructor call in `hubspot.py` fixes which fields are set). -/
structure IntegrationItem where
  id : JValue
  type : String
  name : String
  creation_time : Option JValue
  last_modified_time : Option JValue
  parent_id : Option JValue

/-- Python `str.strip()` at the character-list level: drop leading
whitespace, then drop trailing whitespace. -/
def stripL (l : List Char) : List Char :=
  ((l.dropWhile Char.isWhitespace).reverse.dropWhile Char.isWhitespace).reverse

/-- Python `str.strip()`. -/
def pyStrip (s : String) : String := ⟨stripL s.data⟩

/-- `.strip()` on the result of a `.get`: `AttributeError` when the value
is not a string. -/
def pyStripAttr : JValue → Except PyErr String
  | .str s => .ok (pyStrip s)
  | _ => .error .attributeError

/-- `create_integration_item_metadata_object(contact_data)`. -/
def create_integration_item_metadata_object (contact_data : JValue) :
    Except PyErr IntegrationItem :=
  match pyGetD contact_data "properties" (.obj []) with
  | .error e => .error e
  | .ok properties =>
    match pyGetD properties "firstname" (.str "") with
    | .error e => .error e
    | .ok fn =>
      match pyStripAttr fn with
      | .error e => .error e
      | .ok first_name =>
        match pyGetD properties "lastname" (.str "") with
        | .error e => .error e
        | .ok ln =>
          match pyStripAttr ln with
          | .error e => .error e
          | .ok last_name =>
            -- `full_name = f"{first_name} {last_name}".strip() or "Unnamed Contact"`
            let joined := pyStrip (first_name ++ " " ++ last_name)
            let full_name := if joined = "" then "Unnamed Contact" else joined
            match pyIndex contact_data "id" with
            | .error e => .error e
            | .ok idv =>
              match pyGet contact_data "createdAt" with
              | .error e => .error e
              | .ok creation =>
                match pyGet contact_data "updatedAt" with
                | .error e => .error e
                | .ok modified =>
                  .ok ⟨idv, "contact", full_name, creation, modified, none⟩

/-- The `credentials` argument of `get_items_hubspot`: either an already
structured payload (Python dict) or its serialized wire form (Python str). -/
inductive CredArg where
  | dict (v : JValue)
  | str (w : Wire)

/-- `get_items_hubspot(credentials)`. `contactsApi` is the contacts
endpoint keyed by the `Authorization` header value sent with the fixed
`limit=10` request. -/
def get_items_hubspot (contactsApi : String → HttpResp) (credentials : CredArg) :
    Except PyErr (List IntegrationItem) := do
  -- `if isinstance(credentials, str): credentials = json.loads(credentials)`
  let creds ← match credentials with
    | .str w => jsonLoads w
    | .dict v => pure v
  let access ← pyIndex creds "access_token"
  let authHeader := "Bearer " ++ pyFmt access
  let response := contactsApi authHeader
  if response.status_code != 200 then
    .error (.httpException response.status_code response.text)
  else do
    let contacts ← pyGetD response.jsonBody "results" (.arr [])
    match contacts with
    | .arr xs => xs.mapM create_integration_item_metadata_object
    | _ => .error .typeError

/-! Reduction helpers for the embedding. -/

@[simp] theorem jsonLoads_json (v : JValue) : jsonLoads (.json v) = .ok v := rfl

@[simp] theorem jsonLoads_garbage (s : String) : jsonLoads (.garbage s) = .error .jsonDecodeError := rfl

@[simp] theorem jLookup_nil (k : String) : jLookup [] k = none := rfl

@[simp] theorem jLookup_cons (k k' : String) (v : JValue) (fs : List (String × JValue)) :
    jLookup ((k, v) :: fs) k' = if k = k' then some v else jLookup fs k' := by
  simp only [jLookup, List.find?_cons]
  by_cases h : k = k'
  · simp [h]
  · have hb : (k == k') = false := by
      rw [beq_eq_false_iff_ne]
      exact h
    simp [h, hb]

@[simp] theorem pyFmtOpt_none : pyFmtOpt none = "None" := rfl

@[simp] theorem pyFmtOpt_some_str (s : String) : pyFmtOpt (some (.str s)) = s := rfl

@[simp] theorem wireTruthy_json (v : JValue) : wireTruthy (.json v) = true := rfl

@[simp] theorem pyTruthyStrOpt_some (s : String) : pyTruthyStrOpt (some s) = (s != "") := rfl

@[simp] theorem pyTruthyStrOpt_none : pyTruthyStrOpt none = false := rfl

@[simp] theorem pyTruthyWireOpt_some (w : Wire) : pyTruthyWireOpt (some w) = wireTruthy w := rfl

@[simp] theorem pyTruthyWireOpt_none : pyTruthyWireOpt none = false := rfl

@[simp] theorem pyGet_obj (fs : List (String × JValue)) (k : String) :
    pyGet (.obj fs) k = .ok (jLookup fs k) := rfl

@[simp] theorem beq_some_some (a b : JValue) : (some a == some b) = JValue.beq a b := rfl

@[simp] theorem beq_str_str (a b : String) : JValue.beq (.str a) (.str b) = (a == b) := by
  simp [JValue.beq]

@[simp] theorem jvalue_beq_str_str (a b : String) : (JValue.str a == JValue.str b) = (a == b) := by
  show JValue.beq (.str a) (.str b) = (a == b)
  simp [JValue.beq]

/-! Association-list laws for the Redis model. -/

theorem find?_filter_out (s : Store) (k k' : String) (h : k' ≠ k) :
    (s.filter (fun e => e.1 != k)).find? (fun e => e.1 == k')
      = s.find? (fun e => e.1 == k') := by
  induction s with
  | nil => rfl
  | cons e s ih =>
    by_cases h1 : e.1 = k
    · have hk1 : (e.1 == k') = false := by
        rw [beq_eq_false_iff_ne, h1]
        exact Ne.symm h
      simp [List.filter_cons, h1, List.find?_cons, hk1, ih, Ne.symm h]
    · by_cases h2 : e.1 = k'
      · simp [List.filter_cons, h1, List.find?_cons, h2, h]
      · simp [List.filter_cons, h1, List.find?_cons, h2, ih, Ne.symm h]

theorem find?_filter_self (s : Store) (k : String) :
    (s.filter (fun e => e.1 != k)).find? (fun e => e.1 == k) = none := by
  induction s with
  | nil => rfl
  | cons e s ih =>
    by_cases h1 : e.1 = k
    · simp [List.filter_cons, h1, ih]
    · simp [List.filter_cons, h1, List.find?_cons, ih]

@[simp] theorem get_add_self (s : Store) (k : String) (v : Wire) (t : Nat) :
    get_value_redis (add_key_value_redis s k v t) k = some v := by
  simp [get_value_redis, add_key_value_redis, List.find?_cons]

theorem get_add_ne (s : Store) (k k' : String) (v : Wire) (t : Nat) (h : k' ≠ k) :
    get_value_redis (add_key_value_redis s k v t) k' = get_value_redis s k' := by
  have hk : (k == k') = false := by
    rw [beq_eq_false_iff_ne]
    exact Ne.symm h
  simp only [get_value_redis, add_key_value_redis, List.find?_cons, hk,
    find?_filter_out s k k' h]

@[simp] theorem get_delete_self (s : Store) (k : String) :
    get_value_redis (delete_key_redis s k) k = none := by
  simp only [get_value_redis, delete_key_redis, find?_filter_self]

theorem get_delete_ne (s : Store) (k k' : String) (h : k' ≠ k) :
    get_value_redis (delete_key_redis s k) k' = get_value_redis s k' := by
  simp only [get_value_redis, delete_key_redis, find?_filter_out s k k' h]

/-- `d[k] = w` on a dict succeeds and afterwards `k` reads back as `w`. -/
theorem pySetItem_obj (bs : List (String × JValue)) (k : String) (w : JValue) :
    ∃ rs, pySetItem (.obj bs) k w = .ok (.obj rs) ∧ jLookup rs k = some w := by
  by_cases h : (jLookup bs k).isSome
  · refine ⟨bs.map (fun p => if p.1 = k then (k, w) else p), by simp [pySetItem, h], ?_⟩
    induction bs with
    | nil => simp [jLookup] at h
    | cons e bs ih =>
      rcases e with ⟨k1, v1⟩
      by_cases h1 : k1 = k
      · simp [h1]
      · have h' : (jLookup bs k).isSome := by simpa [jLookup_cons, h1] using h
        simpa [h1] using ih h'
  · have hfind : bs.find? (fun p => p.1 == k) = none := by
      cases hf : bs.find? (fun p => p.1 == k) with
      | none => rfl
      | some p => exact absurd (by simp [jLookup, hf]) h
    refine ⟨bs ++ [(k, w)], by simp [pySetItem, h], ?_⟩
    simp [jLookup, List.find?_append, hfind, List.find?_cons]

/-- Inversion for a successful `d[k] = w`: the receiver was a dict and the
result is a dict in which `k` reads back as `w`. -/
theorem pySetItem_ok_inv (v : JValue) (k : String) (w c : JValue)
    (h : pySetItem v k w = .ok c) :
    ∃ rs, c = .obj rs ∧ jLookup rs k = some w := by
  cases v with
  | obj bs =>
    rcases pySetItem_obj bs k w with ⟨rs, h1, h2⟩
    rw [h1] at h
    exact ⟨rs, by injection h with h; exact h.symm, h2⟩
  | null => simp [pySetItem] at h
  | str s => simp [pySetItem] at h
  | int n => simp [pySetItem] at h
  | arr xs => simp [pySetItem] at h

/-- The credentials key and the pending-state key never collide (their
fixed prefixes have different lengths). -/
theorem credsKey_ne_stateKey (o u o' u' : String)
    (ho : o.length = o'.length) (hu : u.length = u'.length) :
    ("hubspot_credentials:" ++ o ++ ":" ++ u)
      ≠ ("hubspot_state:" ++ o' ++ ":" ++ u') := by
  intro h
  have hl := congrArg String.length h
  have e1 : ("hubspot_credentials:" : String).length = 20 := rfl
  have e2 : ("hubspot_state:" : String).length = 14 := rfl
  have e3 : (":" : String).length = 1 := rfl
  simp only [String.length_append, e1, e2, e3, ho, hu] at hl
  omega

/-- Evaluation of the callback handler on the exact state echoed from
`authorize_hubspot`, once the pending state is registered: all checks pass
and the handler reaches the concurrent exchange-and-delete step, whose
outcome depends only on the exchange response. -/
theorem callback_gate_eval (now : Int) (ex : String → HttpResp) (nonce u o code : String)
    (s : Store) (hc : code ≠ "")
    (hs : get_value_redis s ("hubspot_state:" ++ o ++ ":" ++ u)
      = some (.json (hubspotStatePayload nonce u o))) :
    oauth2callback_hubspot now ex
        ⟨none, some code, some (.json (hubspotStatePayload nonce u o))⟩ s
      = (if (ex code).status_code != 200 then
          ⟨delete_key_redis s ("hubspot_state:" ++ o ++ ":" ++ u),
            .error (.httpException (ex code).status_code (ex code).text)⟩
        else
          match pySetItem (ex code).jsonBody "issued_at" (.int now) with
          | .error e =>
            ⟨delete_key_redis s ("hubspot_state:" ++ o ++ ":" ++ u), .error e⟩
          | .ok credentials =>
            ⟨add_key_value_redis (delete_key_redis s ("hubspot_state:" ++ o ++ ":" ++ u))
                ("hubspot_credentials:" ++ o ++ ":" ++ u) (.json credentials) CREDENTIAL_TTL,
              .ok closeWindowHtml⟩) := by
  have hcb : (code != "") = true := by simpa using hc
  simp only [oauth2callback_hubspot, oauth2callbackChecks, pyTruthyStrOpt_some,
    pyTruthyWireOpt_some, wireTruthy_json, hcb, Bool.not_true, Bool.false_or,
    Option.getD_some, jsonLoads_json, hubspotStatePayload, jLookup_cons]
  simp only [hubspotStatePayload, jLookup_cons] at hs
  simp [hs, pyGet_obj, jLookup_cons]

/-- Evaluation of the callback handler on an echoed state whose pending
entry is absent from the store: the state-expired error, store untouched. -/
theorem callback_state_absent (now : Int) (ex : String → HttpResp) (nonce u o code : String)
    (s : Store) (hc : code ≠ "")
    (hs : get_value_redis s ("hubspot_state:" ++ o ++ ":" ++ u) = none) :
    oauth2callback_hubspot now ex
        ⟨none, some code, some (.json (hubspotStatePayload nonce u o))⟩ s
      = ⟨s, .error (.httpException 400 "OAuth state expired or missing.")⟩ := by
  have hcb : (code != "") = true := by simpa using hc
  simp only [oauth2callback_hubspot, oauth2callbackChecks, pyTruthyStrOpt_some,
    pyTruthyWireOpt_some, wireTruthy_json, hcb, Bool.not_true, Bool.false_or,
    Option.getD_some, jsonLoads_json, hubspotStatePayload, jLookup_cons]
  simp [hs, pyGet_obj, jLookup_cons]

/-- Case analysis of the callback handler past the provider-error check: it
either fails before the gather leaving the store untouched, or fails after
it with the pending key deleted, or succeeds having deleted the pending key
and written credentials stamped with `issued_at = now`. -/
theorem callbackChecks_shape (now : Int) (ex : String → HttpResp) (req : QueryParams)
    (s : Store) :
    (∃ e, oauth2callbackChecks now ex req s = ⟨s, .error e⟩)
  ∨ (∃ sk e, oauth2callbackChecks now ex req s = ⟨delete_key_redis s sk, .error e⟩)
  ∨ (∃ u o rs, oauth2callbackChecks now ex req s
      = ⟨add_key_value_redis (delete_key_redis s ("hubspot_state:" ++ o ++ ":" ++ u))
            ("hubspot_credentials:" ++ o ++ ":" ++ u) (.json (.obj rs)) CREDENTIAL_TTL,
          .ok closeWindowHtml⟩
      ∧ jLookup rs "issued_at" = some (.int now)) := by
  simp only [oauth2callbackChecks]
  split
  · exact Or.inl ⟨_, rfl⟩
  · split
    · exact Or.inl ⟨_, rfl⟩
    · split
      · split
        · exact Or.inl ⟨_, rfl⟩
        · split
          · exact Or.inl ⟨_, rfl⟩
          · split
            · exact Or.inl ⟨_, rfl⟩
            · split
              · exact Or.inl ⟨_, rfl⟩
              · split
                · exact Or.inl ⟨_, rfl⟩
                · split
                  · exact Or.inr (Or.inl ⟨_, _, rfl⟩)
                  · split
                    · exact Or.inr (Or.inl ⟨_, _, rfl⟩)
                    · rename_i credentials heq
                      rcases pySetItem_ok_inv _ _ _ _ heq with ⟨rs, hrs, hlook⟩
                      subst hrs
                      exact Or.inr (Or.inr ⟨_, _, rs, rfl, hlook⟩)
      · exact Or.inl ⟨_, rfl⟩

/-! The claims. -/

/-- Claim C3: a well-formed callback state whose nonce differs from the
registered one fails with the state-mismatch error, leaves the store
untouched, and never reaches the token exchange or a credential write (the
conclusion does not depend on the exchange oracle). -/
theorem hubspot_state_mismatch_rejected (now : Int) (ex : String → HttpResp)
    (nonce tampered u o code : String) (s : Store)
    (hc : code ≠ "") (hne : tampered ≠ nonce)
    (hs : get_value_redis s ("hubspot_state:" ++ o ++ ":" ++ u)
      = some (.json (hubspotStatePayload nonce u o))) :
    oauth2callback_hubspot now ex
        ⟨none, some code, some (.json (hubspotStatePayload tampered u o))⟩ s
      = ⟨s, .error (.httpException 400 "State mismatch detected.")⟩ := by
  have hcb : (code != "") = true := by simpa using hc
  have hnb : (tampered == nonce) = false := by
    rw [beq_eq_false_iff_ne]
    exact hne
  simp only [oauth2callback_hubspot, oauth2callbackChecks, pyTruthyStrOpt_some,
    pyTruthyWireOpt_some, wireTruthy_json, hcb, Bool.not_true, Bool.false_or,
    Option.getD_some, jsonLoads_json, hubspotStatePayload, jLookup_cons]
  simp [hs, hubspotStatePayload, pyGet_obj, jLookup_cons, hnb]

/-- Witness for C3 at concrete inputs. -/
theorem hubspot_state_mismatch_rejected_witness :
    ("c" : String) ≠ "" ∧ ("x" : String) ≠ "n"
  ∧ oauth2callback_hubspot 0 (fun _ => ⟨200, .null, ""⟩)
        ⟨none, some "c", some (.json (hubspotStatePayload "x" "u" "o"))⟩
        [("hubspot_state:o:u", .json (hubspotStatePayload "n" "u" "o"), 600)]
      = ⟨[("hubspot_state:o:u", .json (hubspotStatePayload "n" "u" "o"), 600)],
          .error (.httpException 400 "State mismatch detected.")⟩ :=
  ⟨by decide, by decide,
    hubspot_state_mismatch_rejected 0 (fun _ => ⟨200, .null, ""⟩) "n" "x" "u" "o" "c"
      [("hubspot_state:o:u", .json (hubspotStatePayload "n" "u" "o"), 600)]
      (by decide) (by decide) rfl⟩

/-- Claim C4, counterexample: with `code` present and a state that is not
valid JSON, the handler raises the unhandled JSON decode error, which is
not the malformed-request `HTTPException(400, 'Missing code or state.')`
raised for missing parameters. -/
theorem hubspot_malformed_state_not_param_error_cex :
    (oauth2callback_hubspot 0 (fun _ => ⟨200, .null, ""⟩)
        ⟨none, some "c", some (.garbage "not json")⟩ []).result
      = .error .jsonDecodeError
    ∧ PyErr.jsonDecodeError ≠ PyErr.httpException 400 "Missing code or state." :=
  ⟨rfl, by decide⟩

/-- Claim C4 as amended: with both parameters present (non-empty) but a
state value that is not parseable JSON, the handler raises the unhandled
JSON decode error and the store is untouched. -/
theorem hubspot_malformed_state_decode_error (now : Int) (ex : String → HttpResp)
    (s : Store) (code g : String) (hc : code ≠ "") (hg : g ≠ "") :
    oauth2callback_hubspot now ex ⟨none, some code, some (.garbage g)⟩ s
      = ⟨s, .error .jsonDecodeError⟩ := by
  have hcb : (code != "") = true := by simpa using hc
  have hgb : (g != "") = true := by simpa using hg
  simp [oauth2callback_hubspot, oauth2callbackChecks, hcb, hgb, wireTruthy]

/-- Witness for the amended C4 at concrete inputs. -/
theorem hubspot_malformed_state_decode_error_witness :
    ("c" : String) ≠ "" ∧ ("not json" : String) ≠ ""
  ∧ oauth2callback_hubspot 0 (fun _ => ⟨200, .null, ""⟩)
        ⟨none, some "c", some (.garbage "not json")⟩ []
      = ⟨[], .error .jsonDecodeError⟩ :=
  ⟨by decide, by decide,
    hubspot_malformed_state_decode_error 0 (fun _ => ⟨200, .null, ""⟩) [] "c" "not json"
      (by decide) (by decide)⟩

/-- Claim C5, counterexample: a callback carrying an error parameter whose
value is the empty string is not treated as a provider error (Python
truthiness), and falls through to the missing-parameter check instead of
failing with the authorization-denied error `HTTPException(400, '')`. -/
theorem hubspot_empty_error_param_cex :
    (oauth2callback_hubspot 0 (fun _ => ⟨200, .null, ""⟩) ⟨some "", none, none⟩ []).result
      = .error (.httpException 400 "Missing code or state.")
    ∧ PyErr.httpException 400 "Missing code or state." ≠ PyErr.httpException 400 "" :=
  ⟨rfl, by decide⟩

/-- Claim C5 as amended: a callback carrying a non-empty error parameter
fails immediately with the authorization-denied error, the store is
returned untouched for every store (so no pending state is mutated), and
the outcome does not depend on the exchange oracle or the other
parameters. -/
theorem hubspot_error_param_denied (now : Int) (ex : String → HttpResp)
    (e : String) (he : e ≠ "") (codeq : Option String) (stateq : Option Wire)
    (s : Store) :
    oauth2callback_hubspot now ex ⟨some e, codeq, stateq⟩ s
      = ⟨s, .error (.httpException 400 e)⟩ := by
  have heb : (e != "") = true := by simpa using he
  simp [oauth2callback_hubspot, heb]

/-- Witness for the amended C5 at concrete inputs. -/
theorem hubspot_error_param_denied_witness :
    ("access_denied" : String) ≠ ""
  ∧ oauth2callback_hubspot 0 (fun _ => ⟨200, .null, ""⟩)
        ⟨some "access_denied", none, none⟩ []
      = ⟨[], .error (.httpException 400 "access_denied")⟩ :=
  ⟨by decide,
    hubspot_error_param_denied 0 (fun _ => ⟨200, .null, ""⟩) "access_denied"
      (by decide) none none []⟩

/-- Claim C7: `get_items_hubspot` on the serialized form of a credentials
payload behaves identically (same contacts request for every oracle, same
output) to `get_items_hubspot` on the structured payload itself. -/
theorem hubspot_get_items_decode_idempotent (contactsApi : String → HttpResp)
    (c : JValue) :
    get_items_hubspot contactsApi (.str (.json c))
      = get_items_hubspot contactsApi (.dict c) := rfl

/-- Claim C9: a cached payload inside the renewal window with no
`refresh_token` field makes `get_hubspot_credentials` raise the unhandled
`KeyError`, which is none of the structured `HTTPException` errors; the
store is untouched. -/
theorem hubspot_missing_refresh_token_keyerror (now : Int)
    (tok : JValue → HttpResp) (u o : String) (s : Store)
    (fs : List (String × JValue)) (i e : Int)
    (hstore : get_value_redis s ("hubspot_credentials:" ++ o ++ ":" ++ u)
      = some (.json (.obj fs)))
    (hei : jLookup fs "expires_in" = some (.int e))
    (hia : jLookup fs "issued_at" = some (.int i))
    (hrt : jLookup fs "refresh_token" = none)
    (hwin : now > i + e - 300) :
    get_hubspot_credentials now tok u o s = ⟨s, .error (.keyError "refresh_token")⟩
    ∧ ∀ (st : Nat) (d : String), PyErr.keyError "refresh_token" ≠ PyErr.httpException st d := by
  have hd : decide (now > i + e - 300) = true := decide_eq_true hwin
  refine ⟨?_, fun st d h => by cases h⟩
  simp only [get_hubspot_credentials, hstore]
  simp [credExpiryCheck, pyContains, pyIndex, hei, hia, hrt, hd]

/-- Witness for C9 at concrete inputs. -/
theorem hubspot_missing_refresh_token_keyerror_witness :
    jLookup [("access_token", JValue.str "A"), ("expires_in", JValue.int 3600),
        ("issued_at", JValue.int 1000)] "expires_in" = some (.int 3600)
  ∧ (5000 : Int) > 1000 + 3600 - 300
  ∧ get_hubspot_credentials 5000 (fun _ => ⟨200, .null, ""⟩) "u" "o"
        [("hubspot_credentials:o:u",
          .json (.obj [("access_token", JValue.str "A"), ("expires_in", JValue.int 3600),
            ("issued_at", JValue.int 1000)]), 600)]
      = ⟨[("hubspot_credentials:o:u",
            .json (.obj [("access_token", JValue.str "A"), ("expires_in", JValue.int 3600),
              ("issued_at", JValue.int 1000)]), 600)],
          .error (.keyError "refresh_token")⟩ :=
  ⟨rfl, by decide,
    (hubspot_missing_refresh_token_keyerror 5000 (fun _ => ⟨200, .null, ""⟩) "u" "o"
      [("hubspot_credentials:o:u",
        .json (.obj [("access_token", JValue.str "A"), ("expires_in", JValue.int 3600),
          ("issued_at", JValue.int 1000)]), 600)]
      [("access_token", JValue.str "A"), ("expires_in", JValue.int 3600),
        ("issued_at", JValue.int 1000)]
      1000 3600 rfl rfl rfl rfl (by decide)).1⟩

/-- Claim C10: a well-formed state object lacking `user_id` and `org_id`
is not rejected as malformed; the handler reads the missing fields as
`None`, builds the degenerate pending key `hubspot_state:None:None`, and
fails with the state-expired error when no entry exists under that key. -/
theorem hubspot_state_missing_ids_expired (now : Int) (ex : String → HttpResp)
    (code : String) (hc : code ≠ "") (fs : List (String × JValue))
    (hu : jLookup fs "user_id" = none) (ho : jLookup fs "org_id" = none)
    (s : Store)
    (hs : get_value_redis s "hubspot_state:None:None" = none) :
    oauth2callback_hubspot now ex ⟨none, some code, some (.json (.obj fs))⟩ s
      = ⟨s, .error (.httpException 400 "OAuth state expired or missing.")⟩ := by
  have hcb : (code != "") = true := by simpa using hc
  have hs' : get_value_redis s ("hubspot_state:" ++ "None" ++ ":" ++ "None") = none := hs
  simp only [oauth2callback_hubspot, oauth2callbackChecks, pyTruthyStrOpt_some,
    pyTruthyWireOpt_some, wireTruthy_json, hcb, Bool.not_true, Bool.false_or,
    Option.getD_some, jsonLoads_json]
  simp [hu, ho, hs, hs', pyFmtOpt_none]

/-- Witness for C10 at concrete inputs. -/
theorem hubspot_state_missing_ids_expired_witness :
    ("c" : String) ≠ ""
  ∧ jLookup [("state", JValue.str "n")] "user_id" = none
  ∧ oauth2callback_hubspot 0 (fun _ => ⟨200, .null, ""⟩)
        ⟨none, some "c", some (.json (.obj [("state", JValue.str "n")]))⟩ []
      = ⟨[], .error (.httpException 400 "OAuth state expired or missing.")⟩ :=
  ⟨by decide, rfl,
    hubspot_state_missing_ids_expired 0 (fun _ => ⟨200, .null, ""⟩) "c" (by decide)
      [("state", JValue.str "n")] rfl rfl [] rfl⟩

/-- Claim C1: after `authorize_hubspot`, a callback with the exact echoed
state and a valid code succeeds; a second callback with the same state
against the resulting store fails with the state-expired error; and for
every exchange oracle (success or failure) the pending-state key is deleted,
so the nonce is single-use even when the token exchange fails. -/
theorem hubspot_auth_callback_single_use
    (nonce u o code : String) (now now2 : Int) (ex : String → HttpResp) (s0 : Store)
    (hc : code ≠ "") (h200 : (ex code).status_code = 200)
    (bs : List (String × JValue)) (hbody : (ex code).jsonBody = .obj bs) :
    ((oauth2callback_hubspot now ex
        ⟨none, some code, some (.json (hubspotStatePayload nonce u o))⟩
        (authorize_hubspot nonce u o s0).1).result = .ok closeWindowHtml)
  ∧ ((oauth2callback_hubspot now2 ex
        ⟨none, some code, some (.json (hubspotStatePayload nonce u o))⟩
        (oauth2callback_hubspot now ex
          ⟨none, some code, some (.json (hubspotStatePayload nonce u o))⟩
          (authorize_hubspot nonce u o s0).1).store).result
      = .error (.httpException 400 "OAuth state expired or missing."))
  ∧ (∀ ex2 : String → HttpResp,
      get_value_redis
        (oauth2callback_hubspot now ex2
          ⟨none, some code, some (.json (hubspotStatePayload nonce u o))⟩
          (authorize_hubspot nonce u o s0).1).store
        ("hubspot_state:" ++ o ++ ":" ++ u) = none) := by
  have hsk : get_value_redis (authorize_hubspot nonce u o s0).1
      ("hubspot_state:" ++ o ++ ":" ++ u)
      = some (.json (hubspotStatePayload nonce u o)) := by
    simp [authorize_hubspot]
  have hne : ("hubspot_state:" ++ o ++ ":" ++ u)
      ≠ ("hubspot_credentials:" ++ o ++ ":" ++ u) :=
    Ne.symm (credsKey_ne_stateKey o u o u rfl rfl)
  rcases pySetItem_obj bs "issued_at" (.int now) with ⟨rs, hset, hlook⟩
  have heval := callback_gate_eval now ex nonce u o code _ hc hsk
  rw [h200, hbody, hset] at heval
  simp only [bne_self_eq_false, Bool.false_eq_true, if_false] at heval
  refine ⟨by rw [heval], ?_, ?_⟩
  · have hstore : (oauth2callback_hubspot now ex
        ⟨none, some code, some (.json (hubspotStatePayload nonce u o))⟩
        (authorize_hubspot nonce u o s0).1).store
        = add_key_value_redis
            (delete_key_redis (authorize_hubspot nonce u o s0).1
              ("hubspot_state:" ++ o ++ ":" ++ u))
            ("hubspot_credentials:" ++ o ++ ":" ++ u) (.json (.obj rs)) CREDENTIAL_TTL := by
      rw [heval]
    rw [callback_state_absent now2 ex nonce u o code _ hc
      (by rw [hstore, get_add_ne _ _ _ _ _ hne, get_delete_self])]
  · intro ex2
    have heval2 := callback_gate_eval now ex2 nonce u o code _ hc hsk
    rw [heval2]
    by_cases h2 : (ex2 code).status_code = 200
    · simp only [h2, bne_self_eq_false, Bool.false_eq_true, if_false]
      cases hpi : pySetItem (ex2 code).jsonBody "issued_at" (.int now) with
      | error e => simp [get_delete_self]
      | ok credentials => simp [get_add_ne _ _ _ _ _ hne, get_delete_self]
    · have h2b : ((ex2 code).status_code != 200) = true := by simpa using h2
      simp [h2b, get_delete_self]

/-- Witness fixture: an exchange oracle answering 200 with a token body. -/
def exchangeOK : String → HttpResp :=
  fun _ => ⟨200, .obj [("access_token", .str "A")], "ok"⟩

/-- Witness fixture: an exchange oracle answering 500. -/
def exchangeFail : String → HttpResp := fun _ => ⟨500, .null, "boom"⟩

/-- Witness fixture: the callback request echoing the state issued for
nonce `n`, user `u`, org `o`. -/
def echoedReq : QueryParams :=
  ⟨none, some "c", some (.json (hubspotStatePayload "n" "u" "o"))⟩

/-- Witness for C1 at concrete inputs (the unconditional-deletion part is
instantiated at the failing exchange oracle). -/
theorem hubspot_auth_callback_single_use_witness :
    ("c" : String) ≠ ""
  ∧ (exchangeOK "c").status_code = 200
  ∧ ((oauth2callback_hubspot 7 exchangeOK echoedReq
        (authorize_hubspot "n" "u" "o" []).1).result = .ok closeWindowHtml)
  ∧ ((oauth2callback_hubspot 8 exchangeOK echoedReq
        (oauth2callback_hubspot 7 exchangeOK echoedReq
          (authorize_hubspot "n" "u" "o" []).1).store).result
      = .error (.httpException 400 "OAuth state expired or missing."))
  ∧ (get_value_redis
        (oauth2callback_hubspot 7 exchangeFail echoedReq
          (authorize_hubspot "n" "u" "o" []).1).store
        ("hubspot_state:" ++ "o" ++ ":" ++ "u") = none) := by
  have h := hubspot_auth_callback_single_use "n" "u" "o" "c" 7 8 exchangeOK []
    (by decide) rfl [("access_token", JValue.str "A")] rfl
  exact ⟨by decide, rfl, h.1, h.2.1, h.2.2 exchangeFail⟩

/-- Witness fixture: the cached credentials fields of the C2 scenario
(`issued_at = 1000`, `expires_in = 3600`). -/
def cachedFields : List (String × JValue) :=
  [("access_token", .str "A"), ("refresh_token", .str "R"),
    ("expires_in", .int 3600), ("issued_at", .int 1000)]

/-- Witness fixture: a store caching `cachedFields` under the credentials
key for user `u`, org `o`. -/
def cachedStore : Store := [("hubspot_credentials:o:u", .json (.obj cachedFields), 600)]

/-- Witness fixture: a refresh oracle answering 200 with a fresh token
body. -/
def refreshOK : JValue → HttpResp :=
  fun _ => ⟨200, .obj [("access_token", .str "B"), ("expires_in", .int 3600)], "ok"⟩

/-- Claim C2: for a cached payload with `issued_at = T` and
`expires_in = 3600`, `get_hubspot_credentials` leaves the cache untouched
and returns the cached payload when `T + 3600 - now ≥ 300`, and exactly
when `T + 3600 - now < 300` it refreshes, stamps `issued_at = now`,
rewrites the cache entry with the same TTL and returns the refreshed
payload. -/
theorem hubspot_renewal_boundary
    (tok : JValue → HttpResp) (u o : String) (s : Store) (T now : Int)
    (fs : List (String × JValue)) (rt : JValue) (bs : List (String × JValue))
    (hstore : get_value_redis s ("hubspot_credentials:" ++ o ++ ":" ++ u)
      = some (.json (.obj fs)))
    (hia : jLookup fs "issued_at" = some (.int T))
    (hei : jLookup fs "expires_in" = some (.int 3600))
    (hrt : jLookup fs "refresh_token" = some rt)
    (h200 : (tok rt).status_code = 200)
    (hbody : (tok rt).jsonBody = .obj bs) :
    (300 ≤ T + 3600 - now →
      get_hubspot_credentials now tok u o s = ⟨s, .ok (.obj fs)⟩)
  ∧ (T + 3600 - now < 300 →
      ∃ rs, refresh_hubspot_token now tok rt = .ok (.obj rs)
        ∧ jLookup rs "issued_at" = some (.int now)
        ∧ get_hubspot_credentials now tok u o s
            = ⟨add_key_value_redis s ("hubspot_credentials:" ++ o ++ ":" ++ u)
                  (.json (.obj rs)) CREDENTIAL_TTL,
                .ok (.obj rs)⟩) := by
  constructor
  · intro hle
    have hd : decide (now > T + 3600 - 300) = false := decide_eq_false (by omega)
    simp only [get_hubspot_credentials, hstore]
    simp [credExpiryCheck, pyContains, pyIndex, hia, hei, hd]
  · intro hlt
    have hd : decide (now > T + 3600 - 300) = true := decide_eq_true (by omega)
    rcases pySetItem_obj bs "issued_at" (.int now) with ⟨rs, hset, hlook⟩
    have hrefresh : refresh_hubspot_token now tok rt = .ok (.obj rs) := by
      simp [refresh_hubspot_token, h200, hbody, hset]
    refine ⟨rs, hrefresh, hlook, ?_⟩
    simp only [get_hubspot_credentials, hstore]
    simp [credExpiryCheck, pyContains, pyIndex, hia, hei, hrt, hd, hrefresh]

/-- Witness for C2 at the claim's concrete boundary instants: at
`now = 1000 + 3600 - 301` the cache is untouched; at
`now = 1000 + 3600 - 299` a refresh happens. -/
theorem hubspot_renewal_boundary_witness :
    (get_hubspot_credentials 4299 refreshOK "u" "o" cachedStore
      = ⟨cachedStore, .ok (.obj cachedFields)⟩)
  ∧ (∃ rs, refresh_hubspot_token 4301 refreshOK (.str "R") = .ok (.obj rs)
      ∧ jLookup rs "issued_at" = some (.int 4301)
      ∧ get_hubspot_credentials 4301 refreshOK "u" "o" cachedStore
          = ⟨add_key_value_redis cachedStore ("hubspot_credentials:" ++ "o" ++ ":" ++ "u")
                (.json (.obj rs)) CREDENTIAL_TTL,
              .ok (.obj rs)⟩) := by
  have h1 := hubspot_renewal_boundary refreshOK "u" "o" cachedStore 1000 4299
    cachedFields (.str "R") [("access_token", JValue.str "B"), ("expires_in", JValue.int 3600)]
    rfl rfl rfl rfl rfl rfl
  have h2 := hubspot_renewal_boundary refreshOK "u" "o" cachedStore 1000 4301
    cachedFields (.str "R") [("access_token", JValue.str "B"), ("expires_in", JValue.int 3600)]
    rfl rfl rfl rfl rfl rfl
  exact ⟨h1.1 (by decide), h2.2 (by decide)⟩

/-- Claim C6: `issued_at` is always stamped by this system with the current
time: every successful `refresh_hubspot_token` returns a payload whose
`issued_at` reads back as `now`, and every successful callback stores, at
the credentials key, a payload whose `issued_at` reads back as `now`,
whatever `issued_at` the provider response contained. -/
theorem hubspot_issued_at_stamped :
    (∀ (now : Int) (tok : JValue → HttpResp) (rt : JValue) (bs : List (String × JValue)),
        (tok rt).status_code = 200 → (tok rt).jsonBody = .obj bs →
        ∃ rs, refresh_hubspot_token now tok rt = .ok (.obj rs)
          ∧ jLookup rs "issued_at" = some (.int now))
  ∧ (∀ (now : Int) (ex : String → HttpResp) (req : QueryParams) (s : Store) (html : String),
        (oauth2callback_hubspot now ex req s).result = .ok html →
        ∃ u o rs,
          (oauth2callback_hubspot now ex req s).store
            = add_key_value_redis
                (delete_key_redis s ("hubspot_state:" ++ o ++ ":" ++ u))
                ("hubspot_credentials:" ++ o ++ ":" ++ u) (.json (.obj rs)) CREDENTIAL_TTL
          ∧ jLookup rs "issued_at" = some (.int now)) := by
  constructor
  · intro now tok rt bs h200 hbody
    rcases pySetItem_obj bs "issued_at" (.int now) with ⟨rs, hset, hlook⟩
    exact ⟨rs, by simp [refresh_hubspot_token, h200, hbody, hset], hlook⟩
  · intro now ex req s html h
    have hch : oauth2callback_hubspot now ex req s = oauth2callbackChecks now ex req s := by
      cases herr : req.error with
      | none => simp [oauth2callback_hubspot, herr]
      | some e =>
        by_cases he : e = ""
        · simp [oauth2callback_hubspot, herr, he]
        · exfalso
          have heb : (e != "") = true := by simpa using he
          simp [oauth2callback_hubspot, herr, heb] at h
    rw [hch] at h ⊢
    rcases callbackChecks_shape now ex req s with h1 | h2 | h3
    · rcases h1 with ⟨e, he⟩
      rw [he] at h
      simp at h
    · rcases h2 with ⟨sk, e, he⟩
      rw [he] at h
      simp at h
    · rcases h3 with ⟨uu, oo, rs, he, hlook⟩
      exact ⟨uu, oo, rs, by rw [he], hlook⟩

/-- Witness for C6: the refresh part at a 200 oracle whose body already
carries a (stale) `issued_at`, and the callback part at the concrete
C1-style success scenario. -/
theorem hubspot_issued_at_stamped_witness :
    (∃ rs, refresh_hubspot_token 7 (fun _ => ⟨200, .obj [("issued_at", .int 1)], "ok"⟩)
          (.str "R") = .ok (.obj rs)
      ∧ jLookup rs "issued_at" = some (.int 7))
  ∧ (∃ uu oo rs,
      (oauth2callback_hubspot 7 exchangeOK echoedReq
          (authorize_hubspot "n" "u" "o" []).1).store
        = add_key_value_redis
            (delete_key_redis (authorize_hubspot "n" "u" "o" []).1
              ("hubspot_state:" ++ oo ++ ":" ++ uu))
            ("hubspot_credentials:" ++ oo ++ ":" ++ uu) (.json (.obj rs)) CREDENTIAL_TTL
      ∧ jLookup rs "issued_at" = some (.int 7)) :=
  ⟨hubspot_issued_at_stamped.1 7 (fun _ => ⟨200, .obj [("issued_at", .int 1)], "ok"⟩)
      (.str "R") [("issued_at", JValue.int 1)] rfl rfl,
    hubspot_issued_at_stamped.2 7 exchangeOK echoedReq
      (authorize_hubspot "n" "u" "o" []).1 closeWindowHtml rfl⟩

/-! Facts about Python `.strip()` needed for the name-derivation claim. -/

theorem dropWhile_head?_false (p : Char → Bool) (l : List Char) (c : Char)
    (h : (l.dropWhile p).head? = some c) : p c = false := by
  have hx := List.head?_dropWhile_not p l
  rw [h] at hx
  exact hx

theorem dropWhile_getLast?_of_ne_nil (p : Char → Bool) (l : List Char)
    (h : l.dropWhile p ≠ []) : (l.dropWhile p).getLast? = l.getLast? := by
  induction l with
  | nil => simp at h
  | cons a t ih =>
    by_cases hp : p a
    · rw [List.dropWhile_cons_of_pos hp] at h ⊢
      rw [ih h]
      cases t with
      | nil => simp at h
      | cons b t' => rw [List.getLast?_cons_cons]
    · rw [List.dropWhile_cons_of_neg hp]

theorem stripL_getLast?_false (l : List Char) (c : Char)
    (h : (stripL l).getLast? = some c) : Char.isWhitespace c = false := by
  unfold stripL at h
  rw [List.getLast?_reverse] at h
  exact dropWhile_head?_false _ _ _ h

theorem stripL_head?_false (l : List Char) (c : Char)
    (h : (stripL l).head? = some c) : Char.isWhitespace c = false := by
  unfold stripL at h
  rw [List.head?_reverse] at h
  by_cases hz : (l.dropWhile Char.isWhitespace).reverse.dropWhile Char.isWhitespace = []
  · rw [hz] at h
    simp at h
  · rw [dropWhile_getLast?_of_ne_nil _ _ hz, List.getLast?_reverse] at h
    exact dropWhile_head?_false _ _ _ h

theorem stripL_eq_self (l : List Char)
    (h1 : ∀ c, l.head? = some c → Char.isWhitespace c = false)
    (h2 : ∀ c, l.getLast? = some c → Char.isWhitespace c = false) :
    stripL l = l := by
  cases l with
  | nil => rfl
  | cons a t =>
    have ha : Char.isWhitespace a = false := h1 a rfl
    unfold stripL
    rw [List.dropWhile_cons_of_neg (by simp [ha])]
    rcases hql : (a :: t).getLast? with _ | c
    · simp at hql
    · have hc := h2 c hql
      have hrev : (a :: t).reverse.head? = some c := by
        rw [List.head?_reverse]
        exact hql
      rcases hr : (a :: t).reverse with _ | ⟨b, rest⟩
      · rw [hr] at hrev
        simp at hrev
      · rw [hr] at hrev
        simp only [List.head?_cons, Option.some.injEq] at hrev
        rw [List.dropWhile_cons_of_neg (by simp [hrev, hc]), ← hr,
          List.reverse_reverse]

theorem stripL_idem (l : List Char) : stripL (stripL l) = stripL l :=
  stripL_eq_self _ (fun c hc => stripL_head?_false l c hc)
    (fun c hc => stripL_getLast?_false l c hc)

theorem stripL_cons_space (c : Char) (x : List Char)
    (h : Char.isWhitespace c = true) : stripL (c :: x) = stripL x := by
  unfold stripL
  rw [List.dropWhile_cons_of_pos (by simp [h])]

theorem stripL_append_space (x : List Char) (c : Char)
    (h : Char.isWhitespace c = true) : stripL (x ++ [c]) = stripL x := by
  unfold stripL
  rw [List.dropWhile_append]
  by_cases hx : (x.dropWhile Char.isWhitespace).isEmpty
  · rw [if_pos hx]
    have hxe : x.dropWhile Char.isWhitespace = [] := by simpa [List.isEmpty_iff] using hx
    rw [hxe]
    simp [h]
  · rw [if_neg hx, List.reverse_append]
    simp [h]

theorem stripL_append_clean (f l : List Char)
    (hf : stripL f = f) (hl : stripL l = l) (hfne : f ≠ []) (hlne : l ≠ []) :
    stripL (f ++ ' ' :: l) = f ++ ' ' :: l := by
  apply stripL_eq_self
  · intro c hc
    rw [List.head?_append] at hc
    rcases hh : f.head? with _ | d
    · exact absurd (List.head?_eq_none_iff.mp hh) hfne
    · rw [hh, Option.or_some] at hc
      have hdc : d = c := by injection hc
      subst hdc
      exact stripL_head?_false f d (by rw [hf]; exact hh)
  · intro c hc
    rw [List.getLast?_append] at hc
    cases l with
    | nil => exact absurd rfl hlne
    | cons b t =>
      rw [List.getLast?_cons_cons] at hc
      rcases hh : (b :: t).getLast? with _ | d
      · simp at hh
      · rw [hh, Option.or_some] at hc
        have hdc : d = c := by injection hc
        subst hdc
        exact stripL_getLast?_false (b :: t) d (by rw [hl]; exact hh)

theorem string_data_inj (s t : String) (h : s.data = t.data) : s = t := by
  cases s
  cases t
  cases h
  rfl

theorem pyStrip_data (s : String) : (pyStrip s).data = stripL s.data := rfl

theorem string_ne_empty_data (s : String) (h : s ≠ "") : s.data ≠ [] := by
  intro hd
  apply h
  cases s
  cases hd
  rfl

/-- `f"{a} {b}".strip()` keeps both parts verbatim when both are already
stripped and nonempty. -/
theorem pyStrip_join_both (f l : String) (hf : pyStrip f ≠ "") (hl : pyStrip l ≠ "") :
    pyStrip (pyStrip f ++ " " ++ pyStrip l) = pyStrip f ++ " " ++ pyStrip l := by
  have hfS : stripL (pyStrip f).data = (pyStrip f).data := stripL_idem f.data
  have hlS : stripL (pyStrip l).data = (pyStrip l).data := stripL_idem l.data
  have hfd : (pyStrip f).data ≠ [] := string_ne_empty_data _ hf
  have hld : (pyStrip l).data ≠ [] := string_ne_empty_data _ hl
  have hdata : (pyStrip f ++ " " ++ pyStrip l).data
      = (pyStrip f).data ++ ' ' :: (pyStrip l).data := by
    simp [String.data_append, List.append_assoc]
  apply string_data_inj
  rw [pyStrip_data, hdata, stripL_append_clean _ _ hfS hlS hfd hld, ← hdata]

/-- `f" {b}".strip()` is `b` for already-stripped `b`. -/
theorem pyStrip_join_left_empty (l : String) :
    pyStrip ("" ++ " " ++ pyStrip l) = pyStrip l := by
  have hdata : ("" ++ " " ++ pyStrip l).data = ' ' :: (pyStrip l).data := by
    simp [String.data_append]
  apply string_data_inj
  rw [pyStrip_data, hdata, stripL_cons_space _ _ (by decide)]
  exact stripL_idem l.data

/-- `f"{a} ".strip()` is `a` for already-stripped `a`. -/
theorem pyStrip_join_right_empty (f : String) :
    pyStrip (pyStrip f ++ " " ++ "") = pyStrip f := by
  have hdata : (pyStrip f ++ " " ++ "").data = (pyStrip f).data ++ [' '] := by
    simp [String.data_append]
  apply string_data_inj
  rw [pyStrip_data, hdata, stripL_append_space _ _ (by decide)]
  exact stripL_idem f.data

/-- Claim C8, counterexample: a record with empty firstname and lastname
"Lovelace" maps to name "Lovelace", not to the space-joined concatenation
" Lovelace" of the trimmed fields that the claim prescribes. -/
theorem hubspot_name_empty_first_cex :
    create_integration_item_metadata_object
        (.obj [("id", .str "2"),
          ("properties", .obj [("firstname", .str ""), ("lastname", .str "Lovelace")])])
      = .ok ⟨.str "2", "contact", "Lovelace", none, none, none⟩
    ∧ ("Lovelace" : String) ≠ "" ++ " " ++ "Lovelace" :=
  ⟨rfl, by decide⟩

/-- Claim C8 as amended: the canonical item copies `id` verbatim, takes the
`createdAt` / `updatedAt` fields as they are (absent reads as unset), uses
type `contact` and no `parent_id`; its name is the space-joined
concatenation of the trimmed name fields with surrounding whitespace
stripped: both parts verbatim when both are nonempty, the nonempty part
alone when exactly one is empty, and the fixed placeholder (via the
outer strip and the `or` fallback) when both are empty. -/
theorem hubspot_item_mapping (cf pf : List (String × JValue)) (f l : String)
    (idv : JValue)
    (hprops : jLookup cf "properties" = some (.obj pf))
    (hfn : jLookup pf "firstname" = some (.str f))
    (hln : jLookup pf "lastname" = some (.str l))
    (hid : jLookup cf "id" = some idv) :
    (create_integration_item_metadata_object (.obj cf)
      = .ok ⟨idv, "contact",
          (if pyStrip (pyStrip f ++ " " ++ pyStrip l) = "" then "Unnamed Contact"
            else pyStrip (pyStrip f ++ " " ++ pyStrip l)),
          jLookup cf "createdAt", jLookup cf "updatedAt", none⟩)
  ∧ (pyStrip f ≠ "" → pyStrip l ≠ "" →
      pyStrip (pyStrip f ++ " " ++ pyStrip l) = pyStrip f ++ " " ++ pyStrip l)
  ∧ (pyStrip f = "" → pyStrip (pyStrip f ++ " " ++ pyStrip l) = pyStrip l)
  ∧ (pyStrip l = "" → pyStrip (pyStrip f ++ " " ++ pyStrip l) = pyStrip f)
  ∧ (pyStrip f = "" → pyStrip l = "" → pyStrip (pyStrip f ++ " " ++ pyStrip l) = "") := by
  refine ⟨?_, fun hf hl => pyStrip_join_both f l hf hl, fun hf => ?_, fun hl => ?_,
    fun hf hl => ?_⟩
  · simp [create_integration_item_metadata_object, pyGetD, hprops, hfn, hln, hid,
      pyIndex, pyGet, pyStripAttr]
  · rw [hf]
    exact pyStrip_join_left_empty l
  · rw [hl]
    exact pyStrip_join_right_empty f
  · rw [hf, hl]
    decide

/-- Witness for the amended C8 at the Ada Lovelace record (with leading
and trailing whitespace around the firstname). -/
theorem hubspot_item_mapping_witness :
    create_integration_item_metadata_object
        (.obj [("id", .str "1"),
          ("properties", .obj [("firstname", .str " Ada "), ("lastname", .str "Lovelace")]),
          ("createdAt", .str "t1"), ("updatedAt", .str "t2")])
      = .ok ⟨.str "1", "contact", "Ada Lovelace", some (.str "t1"), some (.str "t2"), none⟩
    ∧ pyStrip (pyStrip " Ada " ++ " " ++ pyStrip "Lovelace")
        = pyStrip " Ada " ++ " " ++ pyStrip "Lovelace" := by
  have h := hubspot_item_mapping
    [("id", JValue.str "1"),
      ("properties", .obj [("firstname", JValue.str " Ada "), ("lastname", JValue.str "Lovelace")]),
      ("createdAt", JValue.str "t1"), ("updatedAt", JValue.str "t2")]
    [("firstname", JValue.str " Ada "), ("lastname", JValue.str "Lovelace")]
    " Ada " "Lovelace" (.str "1") rfl rfl rfl rfl
  exact ⟨h.1.trans (by rfl), h.2.1 (by decide) (by decide)⟩

end HubspotOAuth
